import Mathlib

/-!
Shallow embedding of the batched sprite renderer of
`src/009-sprite-sheet/src/main.ts` (classes `SpriteRenderer`,
`BatchDrawCall`, `SpritePipeline`, `Content`).

Modelling decisions:
* JS numbers are modelled as rationals (`ℚ`); `Uint16Array` entries as
  naturals reduced mod 2^16.
* A JS object with string keys (`{ [id: string]: T }`) is an association
  list `List (String × T)` kept in insertion order, which is the
  enumeration order of `for ... in` for non-numeric string keys.
* `Float32Array` is a `List ℚ` of fixed length; an out-of-range write is
  a no-op (`List.set`), matching typed-array semantics.
* GPU objects are modelled by identifiers: a `SpritePipeline` by the id
  of the texture it was built for, a vertex `GPUBuffer` by a numeric id.
* `Texture` and `Rect` come from the repository's `utils.ts` which is not
  part of the sources; they are plain data carriers (spec §3: a texture
  has a stable `id` and pixel dimensions, a rect is `{x,y,width,height}`).
* Fallible code paths (reading a property of `undefined`, which throws a
  `TypeError` in JS) are modelled by `Option`.
-/

namespace WebGPUTutorial

/-- `const MAX_NUMBER_OF_SPRITES = 3` (main.ts line 18). -/
def MAX_NUMBER_OF_SPRITES : ℕ := 3

/-- `const FLOAT_PER_VERTEX = 7` (main.ts line 19). -/
def FLOAT_PER_VERTEX : ℕ := 7

/-- `const FLOATS_PER_SPRITE = 4 * FLOAT_PER_VERTEX` (main.ts line 20). -/
def FLOATS_PER_SPRITE : ℕ := 4 * FLOAT_PER_VERTEX

/-- `const INIDICES_PER_SPRITE = 6` (main.ts line 21, sic). -/
def INIDICES_PER_SPRITE : ℕ := 6

/-- `Rect {x, y, width, height}` in pixels (utils.ts; spec §3). -/
structure Rect where
  x : ℚ
  y : ℚ
  width : ℚ
  height : ℚ
deriving DecidableEq, Repr

/-- A texture: stable string id plus the pixel dimensions of the
underlying GPU texture (`texture.id`, `texture.texture.width`,
`texture.texture.height` in main.ts; spec §3). -/
structure Texture where
  id : String
  width : ℚ
  height : ℚ
deriving DecidableEq, Repr

/-- `class Color { constructor(public r = 1, public g = 1, public b = 1) }`
(main.ts lines 67-69). -/
structure Color where
  r : ℚ
  g : ℚ
  b : ℚ
deriving DecidableEq, Repr

/-- `private defaultColor = new Color()` (main.ts line 80). -/
def defaultColor : Color := ⟨1, 1, 1⟩

/-- `class Sprite { texture, drawRect, sourceRect }` (main.ts lines 23-29). -/
structure Sprite where
  texture : Texture
  drawRect : Rect
  sourceRect : Rect
deriving DecidableEq, Repr

/-- Lookup in a JS object modelled as an insertion-ordered association
list: `obj[k]` is `undefined` (`none`) when the key is absent. -/
def alistLookup {α : Type} (l : List (String × α)) (k : String) : Option α :=
  match l with
  | [] => none
  | (k', v) :: rest => if k' = k then some v else alistLookup rest k

/-- Assignment `obj[k] = v` on a JS object: overwrites in place when the
key exists, otherwise appends the key in insertion order. -/
def alistSet {α : Type} (l : List (String × α)) (k : String) (v : α) :
    List (String × α) :=
  match l with
  | [] => [(k, v)]
  | (k', v') :: rest =>
    if k' = k then (k', v) :: rest else (k', v') :: alistSet rest k v

/-- `class BatchDrawCall` (main.ts lines 71-77).  The `pipeline` field of
the source holds a `SpritePipeline` object, modelled here by the id of
the texture the pipeline was built for (`none` models `undefined`). -/
structure BatchDrawCall where
  pipeline : Option String
  vertexData : List ℚ
  instanceCount : ℕ
deriving DecidableEq, Repr

/-- `new BatchDrawCall(pipeline)`: a zero-initialised
`Float32Array(MAX_NUMBER_OF_SPRITES * FLOATS_PER_SPRITE)` and
`instanceCount = 0`.  `max` stands for `MAX_NUMBER_OF_SPRITES`. -/
def BatchDrawCall.mk0 (max : ℕ) (pipeline : Option String) : BatchDrawCall :=
  { pipeline := pipeline
    vertexData := List.replicate (max * FLOATS_PER_SPRITE) 0
    instanceCount := 0 }

/-- Sequential stores `a[i] = vs[0]; a[i+1] = vs[1]; ...` into a typed
array: out-of-range stores are dropped, as for a `Float32Array`. -/
def writeFloats (a : List ℚ) (i : ℕ) (vs : List ℚ) : List ℚ :=
  match vs with
  | [] => a
  | v :: rest => writeFloats (a.set i v) (i + 1) rest

/-- The 28 floats one `drawSpriteSource` call stores at offsets
`0 + i .. 27 + i` (main.ts lines 189-228), in store order: four vertices
(top left, top right, bottom right, bottom left), each
`[x, y, u, v, r, g, b]`, with the UVs normalised by the texture size. -/
def spriteFloats (rect : Rect) (texture : Texture) (sourceRect : Rect)
    (color : Color) : List ℚ :=
  let u0 := sourceRect.x / texture.width
  let v0 := sourceRect.y / texture.height
  let u1 := (sourceRect.x + sourceRect.width) / texture.width
  let v1 := (sourceRect.y + sourceRect.height) / texture.height
  [rect.x, rect.y, u0, v0, color.r, color.g, color.b,
   rect.x + rect.width, rect.y, u1, v0, color.r, color.g, color.b,
   rect.x + rect.width, rect.y + rect.height, u1, v1, color.r, color.g, color.b,
   rect.x, rect.y + rect.height, u0, v1, color.r, color.g, color.b]

/-- One inner iteration of `setupIndexBuffer` (main.ts lines 116-126):
the six `Uint16Array` stores for quad slot `i`. -/
def setupIndexLoop (data : List ℕ) (i : ℕ) : List ℕ :=
  (((((data.set (i * 6 + 0) ((i * 4 + 0) % 65536)).set
      (i * 6 + 1) ((i * 4 + 1) % 65536)).set
      (i * 6 + 2) ((i * 4 + 2) % 65536)).set
      (i * 6 + 3) ((i * 4 + 2) % 65536)).set
      (i * 6 + 4) ((i * 4 + 3) % 65536)).set
      (i * 6 + 5) ((i * 4 + 0) % 65536)

/-- `setupIndexBuffer` (main.ts lines 113-129): a zeroed
`Uint16Array(max * INIDICES_PER_SPRITE)` filled by the loop over quad
slots `0 ≤ i < max`. -/
def setupIndexBufferData (max : ℕ) : List ℕ :=
  (List.range max).foldl setupIndexLoop
    (List.replicate (max * INIDICES_PER_SPRITE) 0)

/-- The mutable state of a `SpriteRenderer` (main.ts lines 79-111), plus
two pieces of bookkeeping that exist only in the model: `pipelineCreations`
logs every `SpritePipeline.create` call (main.ts lines 166-171), and
`nextBufferId` numbers the vertex buffers `createVertexBuffer` returns. -/
structure RendererState where
  currentTexture : Option Texture
  pipelinesPerTexture : List (String × String)
  pipelineCreations : List String
  batchDrawCallPerTexture : List (String × List BatchDrawCall)
  allocatedVertexBuffers : List ℕ
  nextBufferId : ℕ
  indexBufferData : List ℕ
deriving DecidableEq, Repr

namespace SpriteRenderer

/-- Constructor plus `initialize()` (main.ts lines 105-111, 131-137): all
tables empty, no current texture, empty buffer pool, and the shared index
buffer built once by `setupIndexBuffer`. -/
def initState (max : ℕ) : RendererState :=
  { currentTexture := none
    pipelinesPerTexture := []
    pipelineCreations := []
    batchDrawCallPerTexture := []
    allocatedVertexBuffers := []
    nextBufferId := 0
    indexBufferData := setupIndexBufferData max }

/-- `framePass` (main.ts lines 139-153): resets the batch table and the
current texture.  The camera update and the uniform-buffer write touch
only the camera/uniform state, which no claim mentions, so they are not
modelled. -/
def framePass (s : RendererState) : RendererState :=
  { s with batchDrawCallPerTexture := [], currentTexture := none }

/-- Lines 164-172 of `drawSpriteSource`: look the texture's pipeline up
in the cache and, on a miss, create it (`SpritePipeline.create`, logged
in `pipelineCreations`) and cache it. -/
def ensurePipeline (s : RendererState) (texture : Texture) : RendererState :=
  match alistLookup s.pipelinesPerTexture texture.id with
  | some _ => s
  | none =>
    { s with
      pipelinesPerTexture :=
        alistSet s.pipelinesPerTexture texture.id texture.id
      pipelineCreations := s.pipelineCreations ++ [texture.id] }

/-- Lines 174-177 of `drawSpriteSource`: create the texture's batch list
as `[]` when the table has no entry for it. -/
def ensureBatchList (s : RendererState) (texture : Texture) : RendererState :=
  match alistLookup s.batchDrawCallPerTexture texture.id with
  | some _ => s
  | none =>
    { s with
      batchDrawCallPerTexture :=
        alistSet s.batchDrawCallPerTexture texture.id [] }

/-- The `if (this.currentTexture != texture)` block of `drawSpriteSource`
(main.ts lines 161-178): records the current texture, lazily creates and
caches the texture's `SpritePipeline`, and lazily creates the texture's
batch list. -/
def textureSwitch (s : RendererState) (texture : Texture) : RendererState :=
  if s.currentTexture ≠ some texture then
    ensureBatchList
      (ensurePipeline { s with currentTexture := some texture } texture)
      texture
  else s

end SpriteRenderer

/-- Lines 181-237 of `drawSpriteSource` at the level of one batch list:
take the last batch (`arr[arr.length - 1]`, creating a fresh one when
the list is empty), store the 28 `floats` at offset
`instanceCount * FLOATS_PER_SPRITE`, increment `instanceCount`, and if
the batch thereby holds `max` sprites append a fresh empty batch. -/
def appendSprite (max : ℕ) (pid : Option String)
    (arr : List BatchDrawCall) (floats : List ℚ) : List BatchDrawCall :=
  let (batchDrawCall, front) :=
    match arr.getLast? with
    | some b => (b, arr.dropLast)
    | none => (BatchDrawCall.mk0 max pid, arr)
  let i := batchDrawCall.instanceCount * FLOATS_PER_SPRITE
  let written : BatchDrawCall :=
    { batchDrawCall with
      vertexData := writeFloats batchDrawCall.vertexData i floats
      instanceCount := batchDrawCall.instanceCount + 1 }
  let arr2 := front ++ [written]
  if max ≤ written.instanceCount then arr2 ++ [BatchDrawCall.mk0 max pid]
  else arr2

namespace SpriteRenderer

/-- Lines 180-237 of `drawSpriteSource`, given the texture's batch list
`arrayOfBatchCalls` (already known to be defined): replace it in the
batch table by `appendSprite` of the sprite's 28 floats, using the
cached pipeline of the texture for any freshly created batch. -/
def drawCore (max : ℕ) (s1 : RendererState) (texture : Texture)
    (arrayOfBatchCalls : List BatchDrawCall) (rect sourceRect : Rect)
    (color : Color) : RendererState :=
  { s1 with
    batchDrawCallPerTexture :=
      alistSet s1.batchDrawCallPerTexture texture.id
        (appendSprite max (alistLookup s1.pipelinesPerTexture texture.id)
          arrayOfBatchCalls (spriteFloats rect texture sourceRect color)) }

/-- `drawSpriteSource` (main.ts lines 155-238).  Returns `none` exactly
when `this.batchDrawCallPerTexture[texture.id]` is `undefined` at line
180, where the source would throw a `TypeError`. -/
def drawSpriteSource (max : ℕ) (s : RendererState) (texture : Texture)
    (rect sourceRect : Rect) (color : Color) : Option RendererState :=
  match alistLookup (textureSwitch s texture).batchDrawCallPerTexture
      texture.id with
  | none => none
  | some arrayOfBatchCalls =>
    some (drawCore max (textureSwitch s texture) texture arrayOfBatchCalls
      rect sourceRect color)

end SpriteRenderer

/-- One indexed draw recorded by `frameEnd` (main.ts lines 267-275): the
pipeline that was set, the data of the bound index buffer, the id of the
bound vertex buffer, and the `drawIndexed` count. -/
structure DrawCmd where
  pipeline : Option String
  indexData : List ℕ
  vertexBuffer : ℕ
  indexCount : ℕ
deriving DecidableEq, Repr

/-- Loop state of `frameEnd`: the fresh-buffer counter, the pool
(`allocatedVertexBuffers`), `usedVertexBuffers`, and the draws issued so
far. -/
structure FlushAcc where
  nextBufferId : ℕ
  pool : List ℕ
  used : List ℕ
  cmds : List DrawCmd
deriving DecidableEq, Repr

/-- The body of the inner loop of `frameEnd` (main.ts lines 246-276) for
one `BatchDrawCall`: skip it when `instanceCount == 0`; otherwise pop a
vertex buffer from the pool (`Array.pop` takes the last element) or
create a fresh one, record it as used, and issue one indexed draw of
`6 * instanceCount` indices with the shared index buffer `ibuf` bound. -/
def flushBatch (ibuf : List ℕ) (acc : FlushAcc) (b : BatchDrawCall) :
    FlushAcc :=
  if b.instanceCount = 0 then acc
  else
    match acc.pool.getLast? with
    | some vertexBuffer =>
      { acc with
        pool := acc.pool.dropLast
        used := acc.used ++ [vertexBuffer]
        cmds := acc.cmds ++
          [⟨b.pipeline, ibuf, vertexBuffer, 6 * b.instanceCount⟩] }
    | none =>
      { acc with
        nextBufferId := acc.nextBufferId + 1
        used := acc.used ++ [acc.nextBufferId]
        cmds := acc.cmds ++
          [⟨b.pipeline, ibuf, acc.nextBufferId, 6 * b.instanceCount⟩] }

/-- The batches `frameEnd` visits, flattened in visit order: batch-table
insertion order, then list order within one texture. -/
def allBatches (s : RendererState) : List BatchDrawCall :=
  (s.batchDrawCallPerTexture.map Prod.snd).flatten

namespace SpriteRenderer

/-- `frameEnd` (main.ts lines 240-282): runs the nested loops over the
batch table, then pushes every used vertex buffer back onto the pool.
Returns the new state together with the draws issued by this call. -/
def frameEnd (s : RendererState) : RendererState × List DrawCmd :=
  let acc :=
    (allBatches s).foldl (flushBatch s.indexBufferData)
      ⟨s.nextBufferId, s.allocatedVertexBuffers, [], []⟩
  ({ s with
     nextBufferId := acc.nextBufferId
     allocatedVertexBuffers := acc.pool ++ acc.used }, acc.cmds)

end SpriteRenderer

/-- States reachable from a freshly initialised renderer by any sequence
of `framePass`, successful `drawSpriteSource`, and `frameEnd` calls. -/
inductive Reachable (max : ℕ) : RendererState → Prop where
  | init : Reachable max (SpriteRenderer.initState max)
  | framePass {s} : Reachable max s →
      Reachable max (SpriteRenderer.framePass s)
  | draw {s s' texture rect sourceRect color} : Reachable max s →
      SpriteRenderer.drawSpriteSource max s texture rect sourceRect color =
        some s' → Reachable max s'
  | frameEnd {s} : Reachable max s →
      Reachable max (SpriteRenderer.frameEnd s).1

/-- A sequence of `drawSpriteSource` calls to one fixed texture; each
element of `calls` carries the draw rect, source rect and colour of one
call. -/
def drawSeq (max : ℕ) (texture : Texture)
    (calls : List (Rect × Rect × Color)) (s : RendererState) :
    Option RendererState :=
  match calls with
  | [] => some s
  | c :: rest =>
    (SpriteRenderer.drawSpriteSource max s texture c.1 c.2.1 c.2.2).bind
      (drawSeq max texture rest)

/-- `class Content`'s sprite-sheet subtexture descriptor: one
`<SubTexture>` element of `sheet.xml` after `parseInt` of its attributes
(main.ts lines 52-58). -/
structure SubTexture where
  name : String
  x : ℤ
  y : ℤ
  width : ℤ
  height : ℤ
deriving DecidableEq, Repr

/-- `Content.loadSpriteSheet` (main.ts lines 48-64): for each subtexture,
store under its name a `Sprite` of the sheet texture with
`drawRect = {0,0,width,height}` and `sourceRect = {x,y,width,height}`. -/
def loadSpriteSheet (spriteSheet : Texture) (subs : List SubTexture) :
    List (String × Sprite) :=
  subs.foldl
    (fun sprites st =>
      alistSet sprites st.name
        { texture := spriteSheet
          drawRect := ⟨0, 0, (st.width : ℚ), (st.height : ℚ)⟩
          sourceRect :=
            ⟨(st.x : ℚ), (st.y : ℚ), (st.width : ℚ), (st.height : ℚ)⟩ })
    []

/-- Reading `Content.sprites[name]` (main.ts lines 37, 458, 469): a plain
object lookup, `undefined` (`none`) when the name is absent. -/
def spritesLookup (sprites : List (String × Sprite)) (name : String) :
    Option Sprite :=
  alistLookup sprites name

/-- The batch list of a texture, read as `drawSpriteSource` sees it
after line 178: the table entry, or `[]` when the entry was just
created. -/
def batchListOf (s : RendererState) (texture : Texture) :
    List BatchDrawCall :=
  (alistLookup s.batchDrawCallPerTexture texture.id).getD []

/-- The `instanceCount` of the last batch of a list, `0` when the list
is empty: the count of `arr[arr.length - 1]` as `drawSpriteSource` reads
it at line 181 (a fresh batch has count `0`). -/
def lastInstanceCount (arr : List BatchDrawCall) : ℕ :=
  match arr.getLast? with
  | none => 0
  | some b => b.instanceCount

/-- The `instanceCount` the next sprite of `texture` would be stored
into: the count of the last batch of the texture's list, or `0` when the
list is absent or empty (matching `i / FLOATS_PER_SPRITE` at main.ts
line 187, since `textureSwitch` only ever adds an empty list). -/
def receivingCount (s : RendererState) (texture : Texture) : ℕ :=
  lastInstanceCount (batchListOf s texture)

/-- The offset `i = batchDrawCall.instanceCount * FLOATS_PER_SPRITE`
(main.ts line 187) the 28 stores of a `drawSpriteSource` call are based
at, computed from the pre-call state. -/
def writeIndexBase (s : RendererState) (texture : Texture) : ℕ :=
  receivingCount s texture * FLOATS_PER_SPRITE

/-- Well-formedness of one texture's batch list, maintained between any
two renderer operations: every batch respects the capacity `max` and has
a full-size vertex array, and the last batch (the one the next sprite
goes into) is strictly below capacity. -/
def BatchListInv (max : ℕ) (arr : List BatchDrawCall) : Prop :=
  (∀ b ∈ arr, b.instanceCount ≤ max ∧
    b.vertexData.length = max * FLOATS_PER_SPRITE) ∧
  (∀ b, arr.getLast? = some b → b.instanceCount < max)

/-- The renderer invariant, holding in every reachable state. -/
structure Inv (max : ℕ) (s : RendererState) : Prop where
  batches : ∀ p ∈ s.batchDrawCallPerTexture, BatchListInv max p.2
  current : ∀ t, s.currentTexture = some t →
    (alistLookup s.batchDrawCallPerTexture t.id).isSome = true
  creationsNodup : s.pipelineCreations.Nodup
  creationsIff : ∀ id, id ∈ s.pipelineCreations ↔
    (alistLookup s.pipelinesPerTexture id).isSome = true
  ibuf : s.indexBufferData = setupIndexBufferData max

/-- The number of batches with at least one sprite in the current batch
table: exactly the batches for which `frameEnd` issues a draw. -/
def nonEmptyBatchCount (s : RendererState) : ℕ :=
  ((allBatches s).filter (fun b => decide (b.instanceCount ≠ 0))).length

def tA : Texture := ⟨"A", 1, 1⟩

def callA : Rect × Rect × Color := (⟨0, 0, 1, 1⟩, ⟨0, 0, 1, 1⟩, defaultColor)

def tW : Texture := ⟨"W", 16, 16⟩

def tSheet : Texture := ⟨"sheet", 1024, 1024⟩

def shieldSub : SubTexture := ⟨"shield1.png", 256, 0, 32, 32⟩

def rW : Rect := ⟨0, 0, 1, 1⟩

def srW : Rect := ⟨2, 3, 4, 5⟩

example :
    (drawSeq 3 tA [callA, callA, callA]
      (SpriteRenderer.framePass (SpriteRenderer.initState 3))).map
      (fun s => (alistLookup s.batchDrawCallPerTexture "A").map
        (fun arr => arr.map (fun b => b.instanceCount))) =
    some (some [3, 0]) := by decide

example :
    (drawSeq 2 tA [callA, callA, callA]
      (SpriteRenderer.framePass (SpriteRenderer.initState 2))).map
      (fun s => ((SpriteRenderer.frameEnd s).2.map (fun c => c.indexCount),
        (SpriteRenderer.frameEnd s).1.allocatedVertexBuffers.length)) =
    some ([12, 6], 2) := by decide

example : setupIndexBufferData 3 = [0,1,2,2,3,0,4,5,6,6,7,4,8,9,10,10,11,8] := by decide

/-! ### Association-list lemmas -/

theorem alistLookup_set_self {α : Type} (l : List (String × α)) (k : String)
    (v : α) : alistLookup (alistSet l k v) k = some v := by
  induction l with
  | nil => simp [alistSet, alistLookup]
  | cons p rest ih =>
    obtain ⟨k', v'⟩ := p
    by_cases h : k' = k
    · simp [alistSet, alistLookup, h]
    · simp [alistSet, alistLookup, h, ih]

theorem alistLookup_set_ne {α : Type} (l : List (String × α)) {k k' : String}
    (v : α) (h : k ≠ k') :
    alistLookup (alistSet l k v) k' = alistLookup l k' := by
  induction l with
  | nil => simp [alistSet, alistLookup, h]
  | cons p rest ih =>
    obtain ⟨k'', v''⟩ := p
    by_cases h2 : k'' = k
    · subst h2
      simp [alistSet, alistLookup, h]
    · simp [alistSet, alistLookup, h2, ih]

theorem alistLookup_isSome_set {α : Type} (l : List (String × α))
    (k k' : String) (v : α) (h : (alistLookup l k').isSome = true) :
    (alistLookup (alistSet l k v) k').isSome = true := by
  by_cases hk : k = k'
  · subst hk
    simp [alistLookup_set_self]
  · rwa [alistLookup_set_ne l v hk]

theorem mem_alistSet {α : Type} (l : List (String × α)) (k : String) (v : α) :
    ∀ p ∈ alistSet l k v, p.2 = v ∨ p ∈ l := by
  induction l with
  | nil => simp [alistSet]
  | cons q rest ih =>
    obtain ⟨k', v'⟩ := q
    intro p hp
    by_cases h : k' = k
    · simp [alistSet, h] at hp
      rcases hp with h1 | h1
      · left
        rw [h1]
      · right
        simp [h1]
    · simp [alistSet, h] at hp
      rcases hp with h1 | h1
      · right
        simp [h1]
      · rcases ih p h1 with h2 | h2
        · left
          exact h2
        · right
          simp [h2]

/-! ### Typed-array write lemmas -/

theorem writeFloats_length (vs : List ℚ) :
    ∀ (a : List ℚ) (i : ℕ), (writeFloats a i vs).length = a.length := by
  induction vs with
  | nil =>
    intro a i
    rfl
  | cons v rest ih =>
    intro a i
    simp [writeFloats, ih, List.length_set]

theorem writeFloats_getElem?_lt (vs : List ℚ) :
    ∀ (a : List ℚ) (i j : ℕ), j < i → (writeFloats a i vs)[j]? = a[j]? := by
  induction vs with
  | nil =>
    intro a i j _
    rfl
  | cons v rest ih =>
    intro a i j hj
    show (writeFloats (a.set i v) (i + 1) rest)[j]? = a[j]?
    rw [ih (a.set i v) (i + 1) j (by omega)]
    exact List.getElem?_set_ne (by omega)

theorem writeFloats_getElem?_add (vs : List ℚ) :
    ∀ (a : List ℚ) (i k : ℕ), k < vs.length → i + vs.length ≤ a.length →
      (writeFloats a i vs)[i + k]? = vs[k]? := by
  induction vs with
  | nil =>
    intro a i k hk _
    exact absurd hk (by simp)
  | cons v rest ih =>
    intro a i k hk hlen
    match k with
    | 0 =>
      show (writeFloats (a.set i v) (i + 1) rest)[i + 0]? = _
      have h0 : i + 0 = i := rfl
      rw [h0, writeFloats_getElem?_lt rest (a.set i v) (i + 1) i (by omega)]
      rw [List.getElem?_set_eq_of_lt v (by simp at hlen ⊢; omega)]
      simp
    | k' + 1 =>
      show (writeFloats (a.set i v) (i + 1) rest)[i + (k' + 1)]? = _
      have harr : i + (k' + 1) = (i + 1) + k' := by omega
      rw [harr, ih (a.set i v) (i + 1) k' (by simpa using hk)
        (by simp at hlen ⊢; omega)]
      simp

/-! ### Lemmas about the texture-switch block -/

theorem ensurePipeline_skeleton (s : RendererState) (t : Texture) :
    (SpriteRenderer.ensurePipeline s t).currentTexture = s.currentTexture ∧
    (SpriteRenderer.ensurePipeline s t).batchDrawCallPerTexture =
      s.batchDrawCallPerTexture ∧
    (SpriteRenderer.ensurePipeline s t).allocatedVertexBuffers =
      s.allocatedVertexBuffers ∧
    (SpriteRenderer.ensurePipeline s t).nextBufferId = s.nextBufferId ∧
    (SpriteRenderer.ensurePipeline s t).indexBufferData = s.indexBufferData := by
  unfold SpriteRenderer.ensurePipeline
  cases alistLookup s.pipelinesPerTexture t.id <;> simp

theorem ensurePipeline_creations (s : RendererState) (t : Texture) :
    ((alistLookup s.pipelinesPerTexture t.id).isSome = true ∧
      SpriteRenderer.ensurePipeline s t = s) ∨
    (alistLookup s.pipelinesPerTexture t.id = none ∧
      (SpriteRenderer.ensurePipeline s t).pipelineCreations =
        s.pipelineCreations ++ [t.id] ∧
      (SpriteRenderer.ensurePipeline s t).pipelinesPerTexture =
        alistSet s.pipelinesPerTexture t.id t.id) := by
  unfold SpriteRenderer.ensurePipeline
  cases h : alistLookup s.pipelinesPerTexture t.id with
  | none => right; simp
  | some v => left; simp

theorem ensureBatchList_skeleton (s : RendererState) (t : Texture) :
    (SpriteRenderer.ensureBatchList s t).currentTexture = s.currentTexture ∧
    (SpriteRenderer.ensureBatchList s t).pipelinesPerTexture =
      s.pipelinesPerTexture ∧
    (SpriteRenderer.ensureBatchList s t).pipelineCreations =
      s.pipelineCreations ∧
    (SpriteRenderer.ensureBatchList s t).allocatedVertexBuffers =
      s.allocatedVertexBuffers ∧
    (SpriteRenderer.ensureBatchList s t).nextBufferId = s.nextBufferId ∧
    (SpriteRenderer.ensureBatchList s t).indexBufferData =
      s.indexBufferData := by
  unfold SpriteRenderer.ensureBatchList
  cases alistLookup s.batchDrawCallPerTexture t.id <;> simp

theorem ensureBatchList_lookup_self (s : RendererState) (t : Texture) :
    alistLookup (SpriteRenderer.ensureBatchList s t).batchDrawCallPerTexture
      t.id = some (batchListOf s t) := by
  unfold SpriteRenderer.ensureBatchList batchListOf
  cases h : alistLookup s.batchDrawCallPerTexture t.id with
  | none => simpa [h] using alistLookup_set_self s.batchDrawCallPerTexture t.id []
  | some arr => simp [h]

theorem ensureBatchList_lookup_ne (s : RendererState) (t : Texture)
    (key : String) (h : key ≠ t.id) :
    alistLookup (SpriteRenderer.ensureBatchList s t).batchDrawCallPerTexture
      key = alistLookup s.batchDrawCallPerTexture key := by
  unfold SpriteRenderer.ensureBatchList
  cases h2 : alistLookup s.batchDrawCallPerTexture t.id with
  | none =>
    simpa using alistLookup_set_ne s.batchDrawCallPerTexture [] (Ne.symm h)
  | some arr => simp

theorem ensureBatchList_mem (s : RendererState) (t : Texture) :
    ∀ p ∈ (SpriteRenderer.ensureBatchList s t).batchDrawCallPerTexture,
      p.2 = [] ∨ p ∈ s.batchDrawCallPerTexture := by
  unfold SpriteRenderer.ensureBatchList
  cases h : alistLookup s.batchDrawCallPerTexture t.id with
  | none =>
    intro p hp
    simpa using mem_alistSet s.batchDrawCallPerTexture t.id [] p (by simpa using hp)
  | some arr =>
    intro p hp
    right
    simpa using hp

theorem textureSwitch_currentTexture (s : RendererState) (t : Texture) :
    (SpriteRenderer.textureSwitch s t).currentTexture = some t := by
  unfold SpriteRenderer.textureSwitch
  by_cases h : s.currentTexture = some t
  · simp [h]
  · simp only [h, ne_eq, not_false_iff, if_pos, if_true]
    rw [(ensureBatchList_skeleton _ t).1, (ensurePipeline_skeleton _ t).1]

/-! ### Shape of `appendSprite` and preservation of the invariant -/

theorem alistLookup_mem {α : Type} {l : List (String × α)} {k : String}
    {v : α} (h : alistLookup l k = some v) : (k, v) ∈ l := by
  induction l with
  | nil => simp [alistLookup] at h
  | cons p rest ih =>
    obtain ⟨k', v'⟩ := p
    by_cases h2 : k' = k
    · subst h2
      simp [alistLookup] at h
      simp [h]
    · simp [alistLookup, h2] at h
      simp [ih h]

theorem appendSprite_shape (max : ℕ) (pid : Option String)
    (arr : List BatchDrawCall) (fl : List ℚ) :
    ∃ old front,
      ((arr = [] ∧ old = BatchDrawCall.mk0 max pid ∧ front = []) ∨
        arr = front ++ [old]) ∧
      appendSprite max pid arr fl =
        front ++
          [{ old with
             vertexData :=
               writeFloats old.vertexData
                 (old.instanceCount * FLOATS_PER_SPRITE) fl
             instanceCount := old.instanceCount + 1 }] ++
          (if max ≤ old.instanceCount + 1 then [BatchDrawCall.mk0 max pid]
            else []) := by
  rcases List.eq_nil_or_concat' arr with hnil | ⟨front, old, hconcat⟩
  · refine ⟨BatchDrawCall.mk0 max pid, [], Or.inl ⟨hnil, rfl, rfl⟩, ?_⟩
    subst hnil
    unfold appendSprite
    by_cases h : max ≤ 1 <;> simp [BatchDrawCall.mk0, h]
  · refine ⟨old, front, Or.inr hconcat, ?_⟩
    subst hconcat
    unfold appendSprite
    simp only [List.getLast?_concat, List.dropLast_concat]
    by_cases h : max ≤ old.instanceCount + 1 <;> simp [h]

theorem batchListInv_nil (max : ℕ) : BatchListInv max [] := by
  constructor
  · simp
  · simp

theorem batchListInv_appendSprite {max : ℕ} (hmax : 1 ≤ max)
    {arr : List BatchDrawCall} (h : BatchListInv max arr)
    (pid : Option String) (fl : List ℚ) :
    BatchListInv max (appendSprite max pid arr fl) := by
  obtain ⟨old, front, hsrc, heq⟩ := appendSprite_shape max pid arr fl
  have hold_count : old.instanceCount < max := by
    rcases hsrc with ⟨_, hm, _⟩ | hconcat
    · rw [hm]
      exact hmax
    · exact h.2 old (by rw [hconcat, List.getLast?_concat])
  have hold_len : old.vertexData.length = max * FLOATS_PER_SPRITE := by
    rcases hsrc with ⟨_, hm, _⟩ | hconcat
    · rw [hm]
      simp [BatchDrawCall.mk0]
    · exact (h.1 old (by rw [hconcat]; simp)).2
  have hfront : ∀ b ∈ front, b.instanceCount ≤ max ∧
      b.vertexData.length = max * FLOATS_PER_SPRITE := by
    rcases hsrc with ⟨_, _, hf⟩ | hconcat
    · rw [hf]
      simp
    · intro b hb
      exact h.1 b (by rw [hconcat]; simp [hb])
  rw [heq]
  constructor
  · intro b hb
    simp only [List.mem_append, List.mem_singleton] at hb
    rcases hb with (hb | hb) | hb
    · exact hfront b hb
    · subst hb
      constructor
      · show old.instanceCount + 1 ≤ max
        omega
      · show (writeFloats old.vertexData _ fl).length = _
        rw [writeFloats_length, hold_len]
    · have hbm : b = BatchDrawCall.mk0 max pid := by
        by_cases hc : max ≤ old.instanceCount + 1
        · simpa [hc] using hb
        · simp [hc] at hb
      rw [hbm]
      constructor
      · show 0 ≤ max
        omega
      · show (List.replicate (max * FLOATS_PER_SPRITE) (0 : ℚ)).length = _
        simp
  · intro b hb
    by_cases hc : max ≤ old.instanceCount + 1
    · rw [if_pos hc, List.getLast?_concat] at hb
      cases hb
      show (0 : ℕ) < max
      omega
    · rw [if_neg hc, List.append_nil, List.getLast?_concat] at hb
      cases hb
      show old.instanceCount + 1 < max
      omega

theorem inv_initState (max : ℕ) : Inv max (SpriteRenderer.initState max) := by
  constructor
  · intro p hp
    simp [SpriteRenderer.initState] at hp
  · intro t ht
    simp [SpriteRenderer.initState] at ht
  · simp [SpriteRenderer.initState]
  · intro id
    simp [SpriteRenderer.initState, alistLookup]
  · rfl

theorem inv_framePass {max : ℕ} {s : RendererState} (h : Inv max s) :
    Inv max (SpriteRenderer.framePass s) := by
  constructor
  · intro p hp
    simp [SpriteRenderer.framePass] at hp
  · intro t ht
    simp [SpriteRenderer.framePass] at ht
  · exact h.creationsNodup
  · intro id
    exact h.creationsIff id
  · exact h.ibuf

theorem frameEnd_skeleton (s : RendererState) :
    (SpriteRenderer.frameEnd s).1.currentTexture = s.currentTexture ∧
    (SpriteRenderer.frameEnd s).1.pipelinesPerTexture =
      s.pipelinesPerTexture ∧
    (SpriteRenderer.frameEnd s).1.pipelineCreations = s.pipelineCreations ∧
    (SpriteRenderer.frameEnd s).1.batchDrawCallPerTexture =
      s.batchDrawCallPerTexture ∧
    (SpriteRenderer.frameEnd s).1.indexBufferData = s.indexBufferData := by
  unfold SpriteRenderer.frameEnd
  simp

theorem inv_frameEnd {max : ℕ} {s : RendererState} (h : Inv max s) :
    Inv max (SpriteRenderer.frameEnd s).1 := by
  obtain ⟨h1, h2, h3, h4, h5⟩ := frameEnd_skeleton s
  constructor
  · rw [h4]
    exact h.batches
  · intro t ht
    rw [h4]
    exact h.current t (by rw [← h1]; exact ht)
  · rw [h3]
    exact h.creationsNodup
  · intro id
    rw [h3, h2]
    exact h.creationsIff id
  · rw [h5]
    exact h.ibuf

theorem inv_textureSwitch {max : ℕ} {s : RendererState} (h : Inv max s)
    (t : Texture) : Inv max (SpriteRenderer.textureSwitch s t) := by
  unfold SpriteRenderer.textureSwitch
  by_cases hc : s.currentTexture = some t
  · rw [if_neg (by simpa using hc)]
    exact h
  · rw [if_pos hc]
    have hs1cr : ({ s with currentTexture := some t } :
        RendererState).pipelineCreations = s.pipelineCreations := rfl
    have hs1pp : ({ s with currentTexture := some t } :
        RendererState).pipelinesPerTexture = s.pipelinesPerTexture := rfl
    have hsk2 := ensurePipeline_skeleton
      { s with currentTexture := some t } t
    have hsk3 := ensureBatchList_skeleton
      (SpriteRenderer.ensurePipeline { s with currentTexture := some t } t) t
    constructor
    · intro p hp
      rcases ensureBatchList_mem
          (SpriteRenderer.ensurePipeline
            { s with currentTexture := some t } t) t p hp with h1 | h1
      · rw [h1]
        exact batchListInv_nil max
      · rw [hsk2.2.1] at h1
        exact h.batches p h1
    · intro t' ht'
      rw [hsk3.1, hsk2.1] at ht'
      have htt : t = t' := by simpa using ht'
      subst htt
      rw [ensureBatchList_lookup_self
        (SpriteRenderer.ensurePipeline
          { s with currentTexture := some t } t) t]
      rfl
    · rw [hsk3.2.2.1]
      rcases ensurePipeline_creations
          { s with currentTexture := some t } t with
        ⟨_, heq⟩ | ⟨hnone, hcr, _⟩
      · rw [heq]
        exact h.creationsNodup
      · rw [hcr, hs1cr]
        have hni : t.id ∉ s.pipelineCreations := by
          intro hmem
          have h2 := (h.creationsIff t.id).1 hmem
          rw [← hs1pp, hnone] at h2
          simp at h2
        rw [← List.concat_eq_append]
        exact List.Nodup.concat hni h.creationsNodup
    · intro id
      rw [hsk3.2.2.1, hsk3.2.1]
      rcases ensurePipeline_creations
          { s with currentTexture := some t } t with
        ⟨_, heq⟩ | ⟨hnone, hcr, hpp⟩
      · rw [heq]
        exact h.creationsIff id
      · rw [hcr, hpp, hs1cr, hs1pp]
        by_cases hid : t.id = id
        · subst hid
          simp [alistLookup_set_self]
        · rw [alistLookup_set_ne _ _ hid]
          constructor
          · intro hmem
            simp only [List.mem_append, List.mem_singleton] at hmem
            rcases hmem with hmem | hmem
            · exact (h.creationsIff id).1 hmem
            · exact absurd hmem.symm hid
          · intro hsome
            simp only [List.mem_append, List.mem_singleton]
            exact Or.inl ((h.creationsIff id).2 hsome)
    · rw [hsk3.2.2.2.2.2, hsk2.2.2.2.2]
      exact h.ibuf

theorem inv_drawCore {max : ℕ} {s1 : RendererState} {t : Texture}
    {arr : List BatchDrawCall} (hmax : 1 ≤ max) (h : Inv max s1)
    (harr : alistLookup s1.batchDrawCallPerTexture t.id = some arr)
    (rect sourceRect : Rect) (color : Color) :
    Inv max (SpriteRenderer.drawCore max s1 t arr rect sourceRect color) := by
  have hinv_arr : BatchListInv max arr :=
    h.batches (t.id, arr) (alistLookup_mem harr)
  constructor
  · intro p hp
    unfold SpriteRenderer.drawCore at hp
    simp only at hp
    rcases mem_alistSet _ _ _ p hp with h1 | h1
    · rw [h1]
      exact batchListInv_appendSprite hmax hinv_arr _ _
    · exact h.batches p h1
  · intro t' ht'
    unfold SpriteRenderer.drawCore at ht' ⊢
    simp only at ht' ⊢
    exact alistLookup_isSome_set _ _ _ _ (h.current t' ht')
  · exact h.creationsNodup
  · intro id
    exact h.creationsIff id
  · exact h.ibuf

theorem inv_draw {max : ℕ} {s s' : RendererState} {t : Texture}
    {rect sourceRect : Rect} {color : Color} (hmax : 1 ≤ max)
    (h : Inv max s)
    (hd : SpriteRenderer.drawSpriteSource max s t rect sourceRect color =
      some s') : Inv max s' := by
  unfold SpriteRenderer.drawSpriteSource at hd
  cases harr : alistLookup
      (SpriteRenderer.textureSwitch s t).batchDrawCallPerTexture t.id with
  | none =>
    rw [harr] at hd
    simp at hd
  | some arr =>
    rw [harr] at hd
    simp only [Option.some_inj] at hd
    rw [← hd]
    exact inv_drawCore hmax (inv_textureSwitch h t) harr rect sourceRect color

theorem reachable_inv {max : ℕ} {s : RendererState} (h : Reachable max s)
    (hmax : 1 ≤ max) : Inv max s := by
  induction h with
  | init => exact inv_initState max
  | framePass _ ih => exact inv_framePass ih
  | draw _ hdraw ih => exact inv_draw hmax ih hdraw
  | frameEnd _ ih => exact inv_frameEnd ih

/-! ### The `frameEnd` loop -/

theorem flushBatch_cmds_map (ib : List ℕ) (acc : FlushAcc)
    (b : BatchDrawCall) :
    ((flushBatch ib acc b).cmds).map (fun c => c.indexCount) =
      acc.cmds.map (fun c => c.indexCount) ++
        (if b.instanceCount = 0 then [] else [6 * b.instanceCount]) := by
  unfold flushBatch
  by_cases h : b.instanceCount = 0
  · simp [h]
  · cases hp : acc.pool.getLast? <;> simp [h, hp]

theorem foldl_flushBatch_cmds (ib : List ℕ) (l : List BatchDrawCall) :
    ∀ acc : FlushAcc,
      ((l.foldl (flushBatch ib) acc).cmds).map (fun c => c.indexCount) =
        acc.cmds.map (fun c => c.indexCount) ++
          (l.filter (fun b => decide (b.instanceCount ≠ 0))).map
            (fun b => 6 * b.instanceCount) := by
  induction l with
  | nil =>
    intro acc
    simp
  | cons b rest ih =>
    intro acc
    show ((rest.foldl (flushBatch ib) (flushBatch ib acc b)).cmds).map _ = _
    rw [ih (flushBatch ib acc b), flushBatch_cmds_map]
    by_cases h : b.instanceCount = 0 <;> simp [h, List.filter_cons]

theorem flushBatch_mem_cmds (ib : List ℕ) (acc : FlushAcc)
    (b : BatchDrawCall) :
    ∀ cmd ∈ (flushBatch ib acc b).cmds, cmd ∈ acc.cmds ∨ cmd.indexData = ib := by
  unfold flushBatch
  by_cases h : b.instanceCount = 0
  · intro cmd hcmd
    simp [h] at hcmd
    exact Or.inl hcmd
  · cases hp : acc.pool.getLast? <;>
    · intro cmd hcmd
      simp [h, hp] at hcmd
      rcases hcmd with hcmd | hcmd
      · exact Or.inl hcmd
      · right
        rw [hcmd]

theorem foldl_flushBatch_indexData (ib : List ℕ) (l : List BatchDrawCall) :
    ∀ acc : FlushAcc, ∀ cmd ∈ (l.foldl (flushBatch ib) acc).cmds,
      cmd ∈ acc.cmds ∨ cmd.indexData = ib := by
  induction l with
  | nil =>
    intro acc cmd hcmd
    exact Or.inl hcmd
  | cons b rest ih =>
    intro acc cmd hcmd
    rcases ih (flushBatch ib acc b) cmd hcmd with h1 | h1
    · exact flushBatch_mem_cmds ib acc b cmd h1
    · exact Or.inr h1

theorem flushBatch_size (ib : List ℕ) (acc : FlushAcc) (b : BatchDrawCall) :
    (flushBatch ib acc b).pool.length + (flushBatch ib acc b).used.length =
      if b.instanceCount = 0 then acc.pool.length + acc.used.length
      else if acc.pool = [] then acc.pool.length + acc.used.length + 1
      else acc.pool.length + acc.used.length := by
  unfold flushBatch
  by_cases h : b.instanceCount = 0
  · simp [h]
  · cases hp : acc.pool.getLast? with
    | none =>
      have hnil : acc.pool = [] := List.getLast?_eq_none_iff.1 hp
      simp [h, hnil]
    | some vb =>
      have hne : acc.pool ≠ [] := by
        intro hq
        rw [hq] at hp
        simp at hp
      have hlen : 1 ≤ acc.pool.length := by
        cases hq : acc.pool with
        | nil => exact absurd hq hne
        | cons x xs => simp
      simp only [h, if_neg, hne, if_false]
      simp [List.length_dropLast]
      omega

theorem foldl_flushBatch_size (ib : List ℕ) (l : List BatchDrawCall) :
    ∀ acc : FlushAcc,
      (l.foldl (flushBatch ib) acc).pool.length +
          (l.foldl (flushBatch ib) acc).used.length =
        Nat.max (acc.pool.length + acc.used.length)
          (acc.used.length +
            (l.filter (fun b => decide (b.instanceCount ≠ 0))).length) := by
  induction l with
  | nil =>
    intro acc
    simp [Nat.max_eq_left (by omega : acc.used.length ≤ acc.pool.length + acc.used.length)]
  | cons b rest ih =>
    intro acc
    simp only [List.foldl_cons]
    rw [ih (flushBatch ib acc b)]
    have hsz := flushBatch_size ib acc b
    have husz : (flushBatch ib acc b).used.length =
        if b.instanceCount = 0 then acc.used.length
        else acc.used.length + 1 := by
      unfold flushBatch
      by_cases h : b.instanceCount = 0
      · simp [h]
      · cases hp : acc.pool.getLast? <;> simp [h, hp]
    by_cases h : b.instanceCount = 0
    · rw [if_pos h] at hsz husz
      rw [hsz, husz]
      simp [List.filter_cons, h]
    · rw [if_neg h] at hsz husz
      rw [hsz, husz]
      have hfil : (List.filter (fun b => decide (b.instanceCount ≠ 0))
          (b :: rest)).length =
          (List.filter (fun b => decide (b.instanceCount ≠ 0)) rest).length
            + 1 := by
        simp [List.filter_cons, h]
      rw [hfil]
      by_cases hp : acc.pool = []
      · rw [if_pos hp]
        have hz : acc.pool.length = 0 := by
          rw [hp]
          rfl
        rw [hz]
        simp only [Nat.max_def]
        split_ifs <;> omega
      · rw [if_neg hp]
        simp only [Nat.max_def]
        split_ifs <;> omega

theorem frameEnd_cmds_map (s : RendererState) :
    ((SpriteRenderer.frameEnd s).2).map (fun c => c.indexCount) =
      ((allBatches s).filter (fun b => decide (b.instanceCount ≠ 0))).map
        (fun b => 6 * b.instanceCount) := by
  unfold SpriteRenderer.frameEnd
  simp only
  rw [foldl_flushBatch_cmds]
  simp

theorem frameEnd_pool_length (s : RendererState) :
    (SpriteRenderer.frameEnd s).1.allocatedVertexBuffers.length =
      Nat.max s.allocatedVertexBuffers.length (nonEmptyBatchCount s) := by
  unfold SpriteRenderer.frameEnd nonEmptyBatchCount
  simp only [List.length_append]
  rw [foldl_flushBatch_size]
  simp

theorem frameEnd_indexData (s : RendererState) :
    ∀ cmd ∈ (SpriteRenderer.frameEnd s).2, cmd.indexData = s.indexBufferData := by
  unfold SpriteRenderer.frameEnd
  simp only
  intro cmd hcmd
  rcases foldl_flushBatch_indexData s.indexBufferData (allBatches s) _ cmd hcmd
    with h1 | h1
  · simp at h1
  · exact h1

/-! ### One `drawSpriteSource` step -/

theorem ts_skeleton (s : RendererState) (t : Texture) :
    (SpriteRenderer.textureSwitch s t).allocatedVertexBuffers =
      s.allocatedVertexBuffers ∧
    (SpriteRenderer.textureSwitch s t).nextBufferId = s.nextBufferId ∧
    (SpriteRenderer.textureSwitch s t).indexBufferData =
      s.indexBufferData := by
  unfold SpriteRenderer.textureSwitch
  by_cases hc : s.currentTexture = some t
  · rw [if_neg (by simpa using hc)]
    exact ⟨rfl, rfl, rfl⟩
  · rw [if_pos hc]
    have h2 := ensurePipeline_skeleton { s with currentTexture := some t } t
    have h3 := ensureBatchList_skeleton
      (SpriteRenderer.ensurePipeline { s with currentTexture := some t } t) t
    refine ⟨?_, ?_, ?_⟩
    · rw [h3.2.2.2.1, h2.2.2.1]
    · rw [h3.2.2.2.2.1, h2.2.2.2.1]
    · rw [h3.2.2.2.2.2, h2.2.2.2.2]

theorem ts_lookup {max : ℕ} {s : RendererState} (h : Inv max s)
    (t : Texture) :
    alistLookup (SpriteRenderer.textureSwitch s t).batchDrawCallPerTexture
      t.id = some (batchListOf s t) := by
  unfold SpriteRenderer.textureSwitch
  by_cases hc : s.currentTexture = some t
  · rw [if_neg (by simpa using hc)]
    have hs := h.current t hc
    unfold batchListOf
    cases harr : alistLookup s.batchDrawCallPerTexture t.id with
    | none =>
      rw [harr] at hs
      simp at hs
    | some arr => simp
  · rw [if_pos hc]
    rw [ensureBatchList_lookup_self]
    unfold batchListOf
    rw [(ensurePipeline_skeleton { s with currentTexture := some t } t).2.1]

theorem drawSpriteSource_eq {max : ℕ} {s : RendererState}
    (h : Inv max s) (t : Texture) (rect sourceRect : Rect) (color : Color) :
    SpriteRenderer.drawSpriteSource max s t rect sourceRect color =
      some (SpriteRenderer.drawCore max (SpriteRenderer.textureSwitch s t) t
        (batchListOf s t) rect sourceRect color) := by
  unfold SpriteRenderer.drawSpriteSource
  rw [ts_lookup h t]

theorem drawCore_lookup_self (max : ℕ) (s1 : RendererState) (t : Texture)
    (arr : List BatchDrawCall) (rect sourceRect : Rect) (color : Color) :
    alistLookup (SpriteRenderer.drawCore max s1 t arr rect sourceRect
        color).batchDrawCallPerTexture t.id =
      some (appendSprite max (alistLookup s1.pipelinesPerTexture t.id) arr
        (spriteFloats rect t sourceRect color)) := by
  unfold SpriteRenderer.drawCore
  exact alistLookup_set_self _ _ _

theorem drawCore_lookup_ne (max : ℕ) (s1 : RendererState) (t : Texture)
    (arr : List BatchDrawCall) (rect sourceRect : Rect) (color : Color)
    (key : String) (hk : t.id ≠ key) :
    alistLookup (SpriteRenderer.drawCore max s1 t arr rect sourceRect
        color).batchDrawCallPerTexture key =
      alistLookup s1.batchDrawCallPerTexture key := by
  unfold SpriteRenderer.drawCore
  exact alistLookup_set_ne _ _ hk

theorem lastInstanceCount_concat (front : List BatchDrawCall)
    (old : BatchDrawCall) :
    lastInstanceCount (front ++ [old]) = old.instanceCount := by
  unfold lastInstanceCount
  rw [List.getLast?_concat]

theorem receivingCount_lt {max : ℕ} {s : RendererState} (hmax : 1 ≤ max)
    (h : Inv max s) (t : Texture) : receivingCount s t < max := by
  unfold receivingCount
  rcases List.eq_nil_or_concat' (batchListOf s t) with hnil | ⟨front, old, hco⟩
  · rw [hnil]
    exact hmax
  · rw [hco, lastInstanceCount_concat]
    unfold batchListOf at hco
    cases harr : alistLookup s.batchDrawCallPerTexture t.id with
    | none =>
      rw [harr] at hco
      simp at hco
    | some arr =>
      rw [harr] at hco
      simp only [Option.getD_some] at hco
      exact (h.batches (t.id, arr) (alistLookup_mem harr)).2 old
        (by rw [hco, List.getLast?_concat])

theorem receivingCount_nil {s : RendererState} {t : Texture}
    (h : batchListOf s t = []) : receivingCount s t = 0 := by
  unfold receivingCount
  rw [h]
  rfl

theorem receivingCount_concat {s : RendererState} {t : Texture}
    {front : List BatchDrawCall} {old : BatchDrawCall}
    (h : batchListOf s t = front ++ [old]) :
    receivingCount s t = old.instanceCount := by
  unfold receivingCount
  rw [h, lastInstanceCount_concat]

theorem batchListOf_len {max : ℕ} {s : RendererState} (h : Inv max s)
    (t : Texture) :
    ∀ b ∈ batchListOf s t,
      b.vertexData.length = max * FLOATS_PER_SPRITE := by
  unfold batchListOf
  cases harr : alistLookup s.batchDrawCallPerTexture t.id with
  | none => simp
  | some arr =>
    intro b hb
    simp only [Option.getD_some] at hb
    exact ((h.batches (t.id, arr) (alistLookup_mem harr)).1 b hb).2

theorem spriteFloats_length (rect : Rect) (t : Texture) (sourceRect : Rect)
    (color : Color) :
    (spriteFloats rect t sourceRect color).length = FLOATS_PER_SPRITE := rfl

theorem draw_writes {max : ℕ} {s : RendererState} {t : Texture}
    (hmax : 1 ≤ max) (h : Inv max s) (rect sourceRect : Rect)
    (color : Color) :
    ∃ s' arr' written,
      SpriteRenderer.drawSpriteSource max s t rect sourceRect color =
        some s' ∧
      alistLookup s'.batchDrawCallPerTexture t.id = some arr' ∧
      written ∈ arr' ∧
      written.instanceCount = receivingCount s t + 1 ∧
      ∀ k : ℕ, k < FLOATS_PER_SPRITE →
        written.vertexData[writeIndexBase s t + k]? =
          (spriteFloats rect t sourceRect color)[k]? := by
  have heqd := drawSpriteSource_eq h t rect sourceRect color
  have hlk := drawCore_lookup_self max (SpriteRenderer.textureSwitch s t) t
    (batchListOf s t) rect sourceRect color
  have hfl_len : (spriteFloats rect t sourceRect color).length =
      FLOATS_PER_SPRITE := spriteFloats_length rect t sourceRect color
  generalize hfl : spriteFloats rect t sourceRect color = fl
    at heqd hlk hfl_len ⊢
  obtain ⟨old, front, hsrc, heq⟩ := appendSprite_shape max
    (alistLookup (SpriteRenderer.textureSwitch s t).pipelinesPerTexture t.id)
    (batchListOf s t) fl
  have hold_count : old.instanceCount = receivingCount s t := by
    rcases hsrc with ⟨hnil, hm, _⟩ | hconcat
    · rw [hm, receivingCount_nil hnil]
      rfl
    · rw [receivingCount_concat hconcat]
  have hold_len : old.vertexData.length = max * FLOATS_PER_SPRITE := by
    rcases hsrc with ⟨_, hm, _⟩ | hconcat
    · rw [hm]
      simp [BatchDrawCall.mk0]
    · exact batchListOf_len h t old (by rw [hconcat]; simp)
  refine ⟨_, _,
    { pipeline := old.pipeline
      vertexData := writeFloats old.vertexData
        (old.instanceCount * FLOATS_PER_SPRITE) fl
      instanceCount := old.instanceCount + 1 },
    heqd, hlk, ?_, ?_, ?_⟩
  · rw [heq]
    simp
  · show old.instanceCount + 1 = receivingCount s t + 1
    rw [hold_count]
  · intro k hk
    have hrc : old.instanceCount + 1 ≤ max := by
      have h2 := receivingCount_lt hmax h t
      omega
    have hread := writeFloats_getElem?_add fl old.vertexData
      (old.instanceCount * FLOATS_PER_SPRITE) k
      (by rw [hfl_len]; exact hk)
      (by
        rw [hfl_len, hold_len]
        calc old.instanceCount * FLOATS_PER_SPRITE + FLOATS_PER_SPRITE
            = (old.instanceCount + 1) * FLOATS_PER_SPRITE := by ring
          _ ≤ max * FLOATS_PER_SPRITE :=
              Nat.mul_le_mul_right FLOATS_PER_SPRITE hrc)
    unfold writeIndexBase
    rw [← hold_count]
    exact hread

/-! ### Evolution of the batch counts of one texture -/

theorem appendSprite_counts {max q r : ℕ} (hr : r < max)
    {arr : List BatchDrawCall}
    (hc : arr.map (fun b => b.instanceCount) =
      List.replicate q max ++ [r]) (pid : Option String) (fl : List ℚ) :
    (appendSprite max pid arr fl).map (fun b => b.instanceCount) =
      if r + 1 = max then List.replicate (q + 1) max ++ [0]
      else List.replicate q max ++ [r + 1] := by
  obtain ⟨old, front, hsrc, heq⟩ := appendSprite_shape max pid arr fl
  rcases hsrc with ⟨hnil, _, _⟩ | hconcat
  · rw [hnil] at hc
    exact absurd hc.symm (by simp)
  · rw [hconcat, List.map_append] at hc
    obtain ⟨hfr, hor⟩ := List.append_inj' hc rfl
    have hoc : old.instanceCount = r := by simpa using hor
    rw [heq, List.map_append, List.map_append, hfr]
    have hwc : (List.map (fun b => b.instanceCount)
        [{ old with
           vertexData := writeFloats old.vertexData
             (old.instanceCount * FLOATS_PER_SPRITE) fl
           instanceCount := old.instanceCount + 1 }]) = [r + 1] := by
      simp [hoc]
    rw [hwc]
    by_cases hif : r + 1 = max
    · rw [if_pos hif]
      have hcond : max ≤ old.instanceCount + 1 := by omega
      rw [if_pos hcond]
      have : List.replicate (q + 1) max = List.replicate q max ++ [max] :=
        List.replicate_succ' q max
      rw [this, hif]
      simp [BatchDrawCall.mk0]
    · rw [if_neg hif]
      have hcond : ¬ max ≤ old.instanceCount + 1 := by omega
      rw [if_neg hcond]
      simp

theorem counts_div_mod_succ (T max : ℕ) (hmax : 1 ≤ max) :
    (if T % max + 1 = max then
        List.replicate (T / max + 1) max ++ ([0] : List ℕ)
      else List.replicate (T / max) max ++ [T % max + 1]) =
      List.replicate ((T + 1) / max) max ++ [(T + 1) % max] := by
  by_cases hc : T % max + 1 = max
  · rw [if_pos hc]
    have h1 : T + 1 = (T / max + 1) * max := by
      have hdm := Nat.div_add_mod T max
      have hmul : (T / max + 1) * max = max * (T / max) + max := by ring
      omega
    rw [h1, Nat.mul_div_cancel _ (by omega), Nat.mul_mod_left]
  · rw [if_neg hc]
    have hr : T % max < max := Nat.mod_lt _ (by omega)
    have h2 : T + 1 = (T % max + 1) + T / max * max := by
      have hdm := Nat.div_add_mod T max
      have hmul : T / max * max = max * (T / max) := Nat.mul_comm _ _
      omega
    rw [h2, Nat.add_mul_div_right _ _ (by omega : 0 < max),
      Nat.div_eq_of_lt (show T % max + 1 < max by omega),
      Nat.add_mul_mod_self_right,
      Nat.mod_eq_of_lt (show T % max + 1 < max by omega), Nat.zero_add]

theorem ts_lookup_ne {s : RendererState} {t : Texture}
    (hc : s.currentTexture ≠ some t) :
    alistLookup (SpriteRenderer.textureSwitch s t).batchDrawCallPerTexture
      t.id = some (batchListOf s t) := by
  unfold SpriteRenderer.textureSwitch
  rw [if_pos hc]
  rw [ensureBatchList_lookup_self]
  unfold batchListOf
  rw [(ensurePipeline_skeleton { s with currentTexture := some t } t).2.1]

theorem drawSpriteSource_eq_ne {max : ℕ} {s : RendererState} {t : Texture}
    (hc : s.currentTexture ≠ some t) (rect sourceRect : Rect)
    (color : Color) :
    SpriteRenderer.drawSpriteSource max s t rect sourceRect color =
      some (SpriteRenderer.drawCore max (SpriteRenderer.textureSwitch s t) t
        (batchListOf s t) rect sourceRect color) := by
  unfold SpriteRenderer.drawSpriteSource
  rw [ts_lookup_ne hc]

theorem draw_step_same {max : ℕ} {s : RendererState} {t : Texture}
    (hcur : s.currentTexture = some t) {arr : List BatchDrawCall}
    (harr : alistLookup s.batchDrawCallPerTexture t.id = some arr)
    (rect sourceRect : Rect) (color : Color) :
    SpriteRenderer.drawSpriteSource max s t rect sourceRect color =
      some { s with
             batchDrawCallPerTexture :=
               alistSet s.batchDrawCallPerTexture t.id
                 (appendSprite max (alistLookup s.pipelinesPerTexture t.id)
                   arr (spriteFloats rect t sourceRect color)) } := by
  have hts : SpriteRenderer.textureSwitch s t = s := by
    unfold SpriteRenderer.textureSwitch
    rw [if_neg (by simpa using hcur)]
  unfold SpriteRenderer.drawSpriteSource
  rw [hts, harr]
  rfl

theorem drawSeq_counts {max : ℕ} (hmax : 1 ≤ max) (t : Texture)
    (calls : List (Rect × Rect × Color)) :
    ∀ (s : RendererState) (T : ℕ), s.currentTexture = some t →
      ∀ arr, alistLookup s.batchDrawCallPerTexture t.id = some arr →
        arr.map (fun b => b.instanceCount) =
          List.replicate (T / max) max ++ [T % max] →
        ∃ s' arr',
          drawSeq max t calls s = some s' ∧
          s'.currentTexture = some t ∧
          alistLookup s'.batchDrawCallPerTexture t.id = some arr' ∧
          arr'.map (fun b => b.instanceCount) =
            List.replicate ((T + calls.length) / max) max ++
              [(T + calls.length) % max] := by
  induction calls with
  | nil =>
    intro s T hcur arr harr hcnt
    exact ⟨s, arr, rfl, hcur, harr, by simpa using hcnt⟩
  | cons cHead rest ih =>
    intro s T hcur arr harr hcnt
    have hstep := @draw_step_same max s t hcur arr harr cHead.1 cHead.2.1
      cHead.2.2
    have hr : T % max < max := Nat.mod_lt _ (by omega)
    have hcnt2 := appendSprite_counts hr hcnt
      (alistLookup s.pipelinesPerTexture t.id)
      (spriteFloats cHead.1 t cHead.2.1 cHead.2.2)
    rw [counts_div_mod_succ T max hmax] at hcnt2
    obtain ⟨s', arr', hseq, hcur', harr', hcnt'⟩ := ih
      { s with
        batchDrawCallPerTexture :=
          alistSet s.batchDrawCallPerTexture t.id
            (appendSprite max (alistLookup s.pipelinesPerTexture t.id) arr
              (spriteFloats cHead.1 t cHead.2.1 cHead.2.2)) }
      (T + 1) hcur _ (alistLookup_set_self _ _ _) hcnt2
    refine ⟨s', arr', ?_, hcur', harr', ?_⟩
    · show (SpriteRenderer.drawSpriteSource max s t cHead.1 cHead.2.1
        cHead.2.2).bind (drawSeq max t rest) = some s'
      rw [hstep]
      exact hseq
    · rw [hcnt']
      have harith : T + 1 + rest.length = T + (cHead :: rest).length := by
        simp
        omega
      rw [harith]

theorem draw_first {max : ℕ} (hmax : 1 ≤ max) (s : RendererState)
    (t : Texture) (rect sourceRect : Rect) (color : Color) :
    ∃ s',
      SpriteRenderer.drawSpriteSource max (SpriteRenderer.framePass s) t
        rect sourceRect color = some s' ∧
      s'.currentTexture = some t ∧
      ∃ arr', alistLookup s'.batchDrawCallPerTexture t.id = some arr' ∧
        arr'.map (fun b => b.instanceCount) =
          List.replicate (1 / max) max ++ [1 % max] := by
  have hc : (SpriteRenderer.framePass s).currentTexture ≠ some t := by
    simp [SpriteRenderer.framePass]
  have hnil : batchListOf (SpriteRenderer.framePass s) t = [] := by
    unfold batchListOf SpriteRenderer.framePass
    rfl
  have heqd := @drawSpriteSource_eq_ne max (SpriteRenderer.framePass s) t hc
    rect sourceRect color
  rw [hnil] at heqd
  refine ⟨_, heqd, ?_, ?_⟩
  · show (SpriteRenderer.textureSwitch (SpriteRenderer.framePass s)
      t).currentTexture = some t
    exact textureSwitch_currentTexture _ t
  · refine ⟨_, drawCore_lookup_self max _ t _ rect sourceRect color, ?_⟩
    obtain ⟨old, front, hsrc, heq⟩ := appendSprite_shape max
      (alistLookup (SpriteRenderer.textureSwitch
        (SpriteRenderer.framePass s) t).pipelinesPerTexture t.id) []
      (spriteFloats rect t sourceRect color)
    rcases hsrc with ⟨_, hm, hf⟩ | hconcat
    · rw [heq, hf, hm]
      by_cases h1 : max ≤ 1
      · have hm1 : max = 1 := by omega
        rw [hm1]
        simp [BatchDrawCall.mk0]
      · rw [if_neg (by simp [BatchDrawCall.mk0]; omega)]
        have hd : 1 / max = 0 := Nat.div_eq_of_lt (by omega)
        have hmm : 1 % max = 1 := Nat.mod_eq_of_lt (by omega)
        rw [hd, hmm]
        simp [BatchDrawCall.mk0]
    · exact absurd hconcat (by simp)

/-! ### Claims -/

/-- C1 (counterexample): with the source constant
`MAX_NUMBER_OF_SPRITES = 3`, a frame with exactly 3 `drawSpriteSource`
calls to one texture creates 2 `BatchDrawCall`s in the batch table (the
third call fills the first batch and immediately appends a fresh empty
one), while `ceil(3 / 3) = 1`: the claimed count is wrong whenever the
number of draws is a positive multiple of the capacity. -/
theorem C1_counterexample :
    (drawSeq MAX_NUMBER_OF_SPRITES tA [callA, callA, callA]
      (SpriteRenderer.framePass
        (SpriteRenderer.initState MAX_NUMBER_OF_SPRITES))).map
      (fun s => (alistLookup s.batchDrawCallPerTexture tA.id).map
        List.length) = some (some 2) ∧
    (3 + MAX_NUMBER_OF_SPRITES - 1) / MAX_NUMBER_OF_SPRITES = 1 := by
  constructor
  · decide
  · decide

/-- C1 (amended): for every frame and every sequence of N ≥ 1
`drawSpriteSource` calls to the same texture after `framePass`, the
number of `BatchDrawCall`s created in the batch table for that texture
is `N / max + 1` — this equals `ceil(N / max)` when `max` does not
divide `N`, and `ceil(N / max) + 1` (with an empty trailing batch) when
it does — and the sum of `instanceCount` over those batches is `N`. -/
theorem C1_batch_count (max : ℕ) (hmax : 1 ≤ max) (s : RendererState)
    (t : Texture) (calls : List (Rect × Rect × Color))
    (hne : calls ≠ []) :
    ∃ s' arr',
      drawSeq max t calls (SpriteRenderer.framePass s) = some s' ∧
      alistLookup s'.batchDrawCallPerTexture t.id = some arr' ∧
      arr'.length = calls.length / max + 1 ∧
      (arr'.map (fun b => b.instanceCount)).sum = calls.length := by
  obtain ⟨cHead, rest, rfl⟩ := List.exists_cons_of_ne_nil hne
  obtain ⟨s1, hdraw, hcur1, arr1, harr1, hcnt1⟩ :=
    draw_first hmax s t cHead.1 cHead.2.1 cHead.2.2
  obtain ⟨s', arr', hseq, _, harr', hcnt'⟩ :=
    drawSeq_counts hmax t rest s1 1 hcur1 arr1 harr1 hcnt1
  have hN : 1 + rest.length = (cHead :: rest).length := by
    simp
    omega
  refine ⟨s', arr', ?_, harr', ?_, ?_⟩
  · show (SpriteRenderer.drawSpriteSource max (SpriteRenderer.framePass s) t
      cHead.1 cHead.2.1 cHead.2.2).bind (drawSeq max t rest) = some s'
    rw [hdraw]
    exact hseq
  · have hlm : arr'.length =
        (arr'.map (fun b => b.instanceCount)).length := by simp
    rw [hlm, hcnt', hN]
    simp
  · rw [hcnt', hN]
    rw [List.sum_append, List.sum_replicate]
    simp only [smul_eq_mul, List.sum_cons, List.sum_nil]
    have hdm := Nat.div_add_mod (cHead :: rest).length max
    have hcomm : (cHead :: rest).length / max * max =
        max * ((cHead :: rest).length / max) := Nat.mul_comm _ _
    omega

/-- C1 (amended, witness): one draw call with capacity 3 yields one
batch whose count sums to 1. -/
theorem C1_batch_count_witness :
    ∃ s' arr',
      drawSeq 3 tA [callA]
        (SpriteRenderer.framePass (SpriteRenderer.initState 3)) =
        some s' ∧
      alistLookup s'.batchDrawCallPerTexture tA.id = some arr' ∧
      arr'.length = ([callA] : List (Rect × Rect × Color)).length / 3 + 1 ∧
      (arr'.map (fun b => b.instanceCount)).sum =
        ([callA] : List (Rect × Rect × Color)).length :=
  C1_batch_count 3 (by decide) (SpriteRenderer.initState 3) tA [callA]
    (by simp)

/-- C2: in every reachable state every batch's `instanceCount` lies
between 0 and `max`; the batch that would receive the next sprite of any
texture is strictly below capacity (so no call ever writes into a batch
at capacity — once a batch fills, a fresh `BatchDrawCall` was appended
and receives all subsequent sprites); and a draw preserves every
already-sealed (non-last) batch of its texture and leaves the new last
batch again below capacity. -/
theorem C2_batch_capacity {max : ℕ} {s : RendererState}
    (hr : Reachable max s) (hmax : 1 ≤ max) :
    (∀ p ∈ s.batchDrawCallPerTexture, ∀ b ∈ p.2,
      b.instanceCount ≤ max) ∧
    (∀ t : Texture, receivingCount s t < max) ∧
    (∀ (t : Texture) (rect sourceRect : Rect) (color : Color)
        (s' : RendererState),
      SpriteRenderer.drawSpriteSource max s t rect sourceRect color =
        some s' →
      ∃ arr', alistLookup s'.batchDrawCallPerTexture t.id = some arr' ∧
        (∃ tail, arr' = (batchListOf s t).dropLast ++ tail) ∧
        receivingCount s' t < max) := by
  have inv := reachable_inv hr hmax
  refine ⟨fun p hp b hb => ((inv.batches p hp).1 b hb).1,
    fun t => receivingCount_lt hmax inv t, ?_⟩
  intro t rect sourceRect color s' hd
  have heqd := drawSpriteSource_eq inv t rect sourceRect color
  rw [heqd] at hd
  obtain rfl : SpriteRenderer.drawCore max (SpriteRenderer.textureSwitch s t)
      t (batchListOf s t) rect sourceRect color = s' := by
    exact Option.some_inj.1 hd
  refine ⟨_, drawCore_lookup_self max _ t _ rect sourceRect color, ?_, ?_⟩
  · obtain ⟨old, front, hsrc, heq⟩ := appendSprite_shape max
      (alistLookup (SpriteRenderer.textureSwitch
        s t).pipelinesPerTexture t.id)
      (batchListOf s t) (spriteFloats rect t sourceRect color)
    rcases hsrc with ⟨hnil, _, _⟩ | hconcat
    · rw [hnil]
      exact ⟨appendSprite max
        (alistLookup
          (SpriteRenderer.textureSwitch s t).pipelinesPerTexture t.id)
        [] (spriteFloats rect t sourceRect color), by simp⟩
    · exact ⟨_, by
        rw [heq, hconcat, List.dropLast_concat, List.append_assoc]⟩
  · exact receivingCount_lt hmax
      (reachable_inv (Reachable.draw hr heqd) hmax) t

/-- C2 (witness): the invariant at the freshly initialised renderer with
the source capacity 3. -/
theorem C2_batch_capacity_witness :
    (∀ p ∈ (SpriteRenderer.initState 3).batchDrawCallPerTexture,
      ∀ b ∈ p.2, b.instanceCount ≤ 3) ∧
    (∀ t : Texture, receivingCount (SpriteRenderer.initState 3) t < 3) ∧
    (∀ (t : Texture) (rect sourceRect : Rect) (color : Color)
        (s' : RendererState),
      SpriteRenderer.drawSpriteSource 3 (SpriteRenderer.initState 3) t
        rect sourceRect color = some s' →
      ∃ arr', alistLookup s'.batchDrawCallPerTexture t.id = some arr' ∧
        (∃ tail, arr' =
          (batchListOf (SpriteRenderer.initState 3) t).dropLast ++ tail) ∧
        receivingCount s' t < 3) :=
  C2_batch_capacity Reachable.init (by decide)

/-- C3: `frameEnd` issues exactly one indexed draw per batch with
`instanceCount > 0`, in table order, each covering
`6 * instanceCount` indices, and skips empty batches; concretely, three
draws to one texture with capacity 2 leave counts `[2, 1]` and produce
exactly the two draws `[12, 6]`. -/
theorem C3_frameEnd_draws :
    (∀ s : RendererState,
      ((SpriteRenderer.frameEnd s).2).map (fun c => c.indexCount) =
        ((allBatches s).filter
          (fun b => decide (b.instanceCount ≠ 0))).map
          (fun b => 6 * b.instanceCount)) ∧
    (drawSeq 2 tA [callA, callA, callA]
        (SpriteRenderer.framePass (SpriteRenderer.initState 2))).map
        (fun s =>
          ((alistLookup s.batchDrawCallPerTexture tA.id).map
            (fun arr => arr.map (fun b => b.instanceCount)),
           (SpriteRenderer.frameEnd s).2.map (fun c => c.indexCount))) =
      some (some [2, 1], [12, 6]) := by
  exact ⟨frameEnd_cmds_map, by decide⟩

/-- C4 (counterexample): a first frame drawing 4 sprites (two non-empty
batches) grows the pool to 2; the next frame draws a single sprite (one
non-empty batch) yet the pool still holds 2 buffers after `frameEnd`,
not 1 as the claim requires. -/
theorem C4_counterexample :
    ((drawSeq 3 tA [callA, callA, callA, callA]
      (SpriteRenderer.framePass (SpriteRenderer.initState 3))).bind
      (fun s1 =>
        (drawSeq 3 tA [callA]
          (SpriteRenderer.framePass (SpriteRenderer.frameEnd s1).1)).map
        (fun s2 =>
          ((SpriteRenderer.frameEnd s2).1.allocatedVertexBuffers.length,
           nonEmptyBatchCount s2)))) = some (2, 1) := by
  decide

/-- C4 (amended): after `frameEnd` the pool holds
`max(pool size before, number of non-empty batches drawn this frame)`
buffers — a running maximum over the frames so far, which equals the
frame's non-empty batch count only when no earlier frame drew more. -/
theorem C4_pool_size (s : RendererState) :
    (SpriteRenderer.frameEnd s).1.allocatedVertexBuffers.length =
      Nat.max s.allocatedVertexBuffers.length (nonEmptyBatchCount s) :=
  frameEnd_pool_length s

/-- C5: a `drawSpriteSource` call from any reachable state stores the
normalised UVs `u0 = x/W, v0 = y/H, u1 = (x+width)/W, v1 = (y+height)/H`
at the four vertices' UV slots of the written sprite (offsets
`i+2, i+3`, `i+9, i+10`, `i+16, i+17`, `i+23, i+24`), and when the
source rect lies inside the texture these UVs satisfy
`0 ≤ u0 ≤ u1 ≤ 1` and `0 ≤ v0 ≤ v1 ≤ 1`. -/
theorem C5_uv (max : ℕ) (s : RendererState) (t : Texture)
    (rect sourceRect : Rect) (color : Color)
    (hr : Reachable max s) (hmax : 1 ≤ max)
    (hx : 0 ≤ sourceRect.x) (hy : 0 ≤ sourceRect.y)
    (hw : 0 ≤ sourceRect.width) (hh : 0 ≤ sourceRect.height)
    (hxw : sourceRect.x + sourceRect.width ≤ t.width)
    (hyh : sourceRect.y + sourceRect.height ≤ t.height)
    (htw : 0 < t.width) (hth : 0 < t.height) :
    (∃ s' arr' written,
      SpriteRenderer.drawSpriteSource max s t rect sourceRect color =
        some s' ∧
      alistLookup s'.batchDrawCallPerTexture t.id = some arr' ∧
      written ∈ arr' ∧
      written.vertexData[writeIndexBase s t + 2]? =
        some (sourceRect.x / t.width) ∧
      written.vertexData[writeIndexBase s t + 3]? =
        some (sourceRect.y / t.height) ∧
      written.vertexData[writeIndexBase s t + 9]? =
        some ((sourceRect.x + sourceRect.width) / t.width) ∧
      written.vertexData[writeIndexBase s t + 10]? =
        some (sourceRect.y / t.height) ∧
      written.vertexData[writeIndexBase s t + 16]? =
        some ((sourceRect.x + sourceRect.width) / t.width) ∧
      written.vertexData[writeIndexBase s t + 17]? =
        some ((sourceRect.y + sourceRect.height) / t.height) ∧
      written.vertexData[writeIndexBase s t + 23]? =
        some (sourceRect.x / t.width) ∧
      written.vertexData[writeIndexBase s t + 24]? =
        some ((sourceRect.y + sourceRect.height) / t.height)) ∧
    (0 ≤ sourceRect.x / t.width ∧
     sourceRect.x / t.width ≤ (sourceRect.x + sourceRect.width) / t.width ∧
     (sourceRect.x + sourceRect.width) / t.width ≤ 1 ∧
     0 ≤ sourceRect.y / t.height ∧
     sourceRect.y / t.height ≤
       (sourceRect.y + sourceRect.height) / t.height ∧
     (sourceRect.y + sourceRect.height) / t.height ≤ 1) := by
  constructor
  · have inv := reachable_inv hr hmax
    obtain ⟨s', arr', written, hd, hlk, hmem, _, hread⟩ :=
      draw_writes hmax inv rect sourceRect color
    refine ⟨s', arr', written, hd, hlk, hmem, ?_, ?_, ?_, ?_, ?_, ?_,
      ?_, ?_⟩
    · rw [hread 2 (by decide)]
      rfl
    · rw [hread 3 (by decide)]
      rfl
    · rw [hread 9 (by decide)]
      rfl
    · rw [hread 10 (by decide)]
      rfl
    · rw [hread 16 (by decide)]
      rfl
    · rw [hread 17 (by decide)]
      rfl
    · rw [hread 23 (by decide)]
      rfl
    · rw [hread 24 (by decide)]
      rfl
  · refine ⟨div_nonneg hx (le_of_lt htw),
      (div_le_div_iff_of_pos_right htw).2 (by linarith),
      (div_le_one htw).2 hxw,
      div_nonneg hy (le_of_lt hth),
      (div_le_div_iff_of_pos_right hth).2 (by linarith),
      (div_le_one hth).2 hyh⟩

/-- C5 (witness): the UV writes and bounds at a concrete draw of the
source rect `{2,3,4,5}` of a 16×16 texture from a freshly started
frame. -/
theorem C5_uv_witness :
    (∃ s' arr' written,
      SpriteRenderer.drawSpriteSource 3
        (SpriteRenderer.framePass (SpriteRenderer.initState 3)) tW
        rW srW defaultColor = some s' ∧
      alistLookup s'.batchDrawCallPerTexture tW.id = some arr' ∧
      written ∈ arr' ∧
      written.vertexData[writeIndexBase
        (SpriteRenderer.framePass (SpriteRenderer.initState 3)) tW + 2]? =
        some (srW.x / tW.width) ∧
      written.vertexData[writeIndexBase
        (SpriteRenderer.framePass (SpriteRenderer.initState 3)) tW + 3]? =
        some (srW.y / tW.height) ∧
      written.vertexData[writeIndexBase
        (SpriteRenderer.framePass (SpriteRenderer.initState 3)) tW + 9]? =
        some ((srW.x + srW.width) / tW.width) ∧
      written.vertexData[writeIndexBase
        (SpriteRenderer.framePass (SpriteRenderer.initState 3)) tW + 10]? =
        some (srW.y / tW.height) ∧
      written.vertexData[writeIndexBase
        (SpriteRenderer.framePass (SpriteRenderer.initState 3)) tW + 16]? =
        some ((srW.x + srW.width) / tW.width) ∧
      written.vertexData[writeIndexBase
        (SpriteRenderer.framePass (SpriteRenderer.initState 3)) tW + 17]? =
        some ((srW.y + srW.height) / tW.height) ∧
      written.vertexData[writeIndexBase
        (SpriteRenderer.framePass (SpriteRenderer.initState 3)) tW + 23]? =
        some (srW.x / tW.width) ∧
      written.vertexData[writeIndexBase
        (SpriteRenderer.framePass (SpriteRenderer.initState 3)) tW + 24]? =
        some ((srW.y + srW.height) / tW.height)) ∧
    (0 ≤ srW.x / tW.width ∧
     srW.x / tW.width ≤ (srW.x + srW.width) / tW.width ∧
     (srW.x + srW.width) / tW.width ≤ 1 ∧
     0 ≤ srW.y / tW.height ∧
     srW.y / tW.height ≤ (srW.y + srW.height) / tW.height ∧
     (srW.y + srW.height) / tW.height ≤ 1) :=
  C5_uv 3 (SpriteRenderer.framePass (SpriteRenderer.initState 3)) tW rW
    srW defaultColor (Reachable.framePass Reachable.init) (by decide)
    (by norm_num [srW]) (by norm_num [srW]) (by norm_num [srW])
    (by norm_num [srW]) (by norm_num [srW, tW]) (by norm_num [srW, tW])
    (by norm_num [tW]) (by norm_num [tW])

/-- C6 (counterexample): the sprite catalog is a plain object lookup:
requesting a name absent from the catalog returns `undefined` (`none`)
silently instead of failing with a `LookupError`, while present names
return their sprite. -/
theorem C6_counterexample :
    spritesLookup (loadSpriteSheet tSheet [shieldSub]) "missing.png" =
      none ∧
    spritesLookup (loadSpriteSheet tSheet [shieldSub]) "shield1.png" =
      some { texture := tSheet
             drawRect := ⟨0, 0, 32, 32⟩
             sourceRect := ⟨256, 0, 32, 32⟩ } := by
  constructor
  · rfl
  · rfl

/-- C6 (amended): for every sprite name not present in the loaded
catalog, `Content.sprites[name]` yields `undefined` (`none`): the lookup
is total and raises no error; the failure surfaces only when the caller
dereferences the result. -/
theorem C6_lookup_none (sheet : Texture) (subs : List SubTexture)
    (name : String) (h : ∀ st ∈ subs, st.name ≠ name) :
    spritesLookup (loadSpriteSheet sheet subs) name = none := by
  unfold spritesLookup loadSpriteSheet
  suffices hgen : ∀ subs2 : List SubTexture,
      (∀ st ∈ subs2, st.name ≠ name) →
      ∀ acc : List (String × Sprite), alistLookup acc name = none →
      alistLookup
        (subs2.foldl
          (fun sprites st =>
            alistSet sprites st.name
              { texture := sheet
                drawRect := ⟨0, 0, (st.width : ℚ), (st.height : ℚ)⟩
                sourceRect :=
                  ⟨(st.x : ℚ), (st.y : ℚ), (st.width : ℚ),
                    (st.height : ℚ)⟩ }) acc) name = none by
    exact hgen subs h [] rfl
  intro subs2
  induction subs2 with
  | nil =>
    intro _ acc hacc
    exact hacc
  | cons st rest ih =>
    intro h2 acc hacc
    simp only [List.foldl_cons]
    refine ih (fun st' hst' => h2 st' (List.mem_cons_of_mem st hst')) _ ?_
    rw [alistLookup_set_ne _ _ (h2 st (List.mem_cons_self st rest))]
    exact hacc

/-- C6 (amended, witness): the one-entry catalog returns `none` for an
absent name. -/
theorem C6_lookup_none_witness :
    spritesLookup (loadSpriteSheet tSheet [shieldSub]) "absent.png" =
      none :=
  C6_lookup_none tSheet [shieldSub] "absent.png" (by decide)

theorem ts_creations_of_isSome {s : RendererState} {t : Texture}
    (hsome : (alistLookup s.pipelinesPerTexture t.id).isSome = true) :
    (SpriteRenderer.textureSwitch s t).pipelineCreations =
      s.pipelineCreations := by
  unfold SpriteRenderer.textureSwitch
  by_cases hc : s.currentTexture = some t
  · rw [if_neg (by simpa using hc)]
  · rw [if_pos hc]
    rw [(ensureBatchList_skeleton _ t).2.2.1]
    rcases ensurePipeline_creations { s with currentTexture := some t } t
      with ⟨_, heq⟩ | ⟨hnone, _, _⟩
    · rw [heq]
    · rw [show ({ s with currentTexture := some t } :
          RendererState).pipelinesPerTexture = s.pipelinesPerTexture
          from rfl] at hnone
      rw [hnone] at hsome
      simp at hsome

/-- C7: over the renderer's whole lifetime at most one `SpritePipeline`
is created per distinct texture id (the creation log never holds a
duplicate id), and a `drawSpriteSource` call whose texture already has a
cached pipeline — in particular any call in a later frame, after
`framePass` reset the batch table — logs no new creation. -/
theorem C7_pipeline_cache {max : ℕ} {s : RendererState}
    (hr : Reachable max s) (hmax : 1 ≤ max) :
    (∀ id : String, s.pipelineCreations.count id ≤ 1) ∧
    (∀ (t : Texture) (rect sourceRect : Rect) (color : Color)
        (s' : RendererState),
      (alistLookup s.pipelinesPerTexture t.id).isSome = true →
      SpriteRenderer.drawSpriteSource max s t rect sourceRect color =
        some s' →
      s'.pipelineCreations = s.pipelineCreations) := by
  have inv := reachable_inv hr hmax
  constructor
  · intro id
    exact List.nodup_iff_count_le_one.1 inv.creationsNodup id
  · intro t rect sourceRect color s' hsome hd
    rw [drawSpriteSource_eq inv t rect sourceRect color] at hd
    obtain rfl : SpriteRenderer.drawCore max
        (SpriteRenderer.textureSwitch s t) t (batchListOf s t) rect
        sourceRect color = s' := Option.some_inj.1 hd
    show (SpriteRenderer.textureSwitch s t).pipelineCreations =
      s.pipelineCreations
    exact ts_creations_of_isSome hsome

/-- C7 (witness): the pipeline-cache property at the freshly initialised
renderer. -/
theorem C7_pipeline_cache_witness :
    (∀ id : String,
      (SpriteRenderer.initState 3).pipelineCreations.count id ≤ 1) ∧
    (∀ (t : Texture) (rect sourceRect : Rect) (color : Color)
        (s' : RendererState),
      (alistLookup (SpriteRenderer.initState 3).pipelinesPerTexture
        t.id).isSome = true →
      SpriteRenderer.drawSpriteSource 3 (SpriteRenderer.initState 3) t
        rect sourceRect color = some s' →
      s'.pipelineCreations =
        (SpriteRenderer.initState 3).pipelineCreations) :=
  C7_pipeline_cache Reachable.init (by decide)

/-- C8: the shared index buffer holds, for every quad slot
`i < MAX_NUMBER_OF_SPRITES`, the six indices
`4i, 4i+1, 4i+2, 4i+2, 4i+3, 4i` at positions `6i .. 6i+5`; in every
reachable state the buffer is still exactly the one `setupIndexBuffer`
built at initialisation; and every indexed draw issued by `frameEnd`
binds that same buffer. -/
theorem C8_index_buffer (max : ℕ) (s : RendererState)
    (hr : Reachable max s) (hmax : 1 ≤ max) :
    (∀ i, i < MAX_NUMBER_OF_SPRITES →
      (setupIndexBufferData MAX_NUMBER_OF_SPRITES)[6 * i + 0]? =
        some (4 * i + 0) ∧
      (setupIndexBufferData MAX_NUMBER_OF_SPRITES)[6 * i + 1]? =
        some (4 * i + 1) ∧
      (setupIndexBufferData MAX_NUMBER_OF_SPRITES)[6 * i + 2]? =
        some (4 * i + 2) ∧
      (setupIndexBufferData MAX_NUMBER_OF_SPRITES)[6 * i + 3]? =
        some (4 * i + 2) ∧
      (setupIndexBufferData MAX_NUMBER_OF_SPRITES)[6 * i + 4]? =
        some (4 * i + 3) ∧
      (setupIndexBufferData MAX_NUMBER_OF_SPRITES)[6 * i + 5]? =
        some (4 * i + 0)) ∧
    s.indexBufferData = setupIndexBufferData max ∧
    (∀ cmd ∈ (SpriteRenderer.frameEnd s).2,
      cmd.indexData = setupIndexBufferData max) := by
  have inv := reachable_inv hr hmax
  refine ⟨by decide, inv.ibuf, ?_⟩
  intro cmd hcmd
  rw [frameEnd_indexData s cmd hcmd]
  exact inv.ibuf

/-- C8 (witness): the index-buffer property at the freshly initialised
renderer with the source capacity 3. -/
theorem C8_index_buffer_witness :
    (∀ i, i < MAX_NUMBER_OF_SPRITES →
      (setupIndexBufferData MAX_NUMBER_OF_SPRITES)[6 * i + 0]? =
        some (4 * i + 0) ∧
      (setupIndexBufferData MAX_NUMBER_OF_SPRITES)[6 * i + 1]? =
        some (4 * i + 1) ∧
      (setupIndexBufferData MAX_NUMBER_OF_SPRITES)[6 * i + 2]? =
        some (4 * i + 2) ∧
      (setupIndexBufferData MAX_NUMBER_OF_SPRITES)[6 * i + 3]? =
        some (4 * i + 2) ∧
      (setupIndexBufferData MAX_NUMBER_OF_SPRITES)[6 * i + 4]? =
        some (4 * i + 3) ∧
      (setupIndexBufferData MAX_NUMBER_OF_SPRITES)[6 * i + 5]? =
        some (4 * i + 0)) ∧
    (SpriteRenderer.initState 3).indexBufferData =
      setupIndexBufferData 3 ∧
    (∀ cmd ∈ (SpriteRenderer.frameEnd (SpriteRenderer.initState 3)).2,
      cmd.indexData = setupIndexBufferData 3) :=
  C8_index_buffer 3 (SpriteRenderer.initState 3) Reachable.init (by decide)

/-- C9: `framePass` immediately followed by `frameEnd` issues no draw
and returns the vertex-buffer pool unchanged (in particular unchanged in
size). -/
theorem C9_empty_frame (s : RendererState) :
    (SpriteRenderer.frameEnd (SpriteRenderer.framePass s)).2 = [] ∧
    (SpriteRenderer.frameEnd
        (SpriteRenderer.framePass s)).1.allocatedVertexBuffers =
      s.allocatedVertexBuffers := by
  constructor
  · rfl
  · show (SpriteRenderer.framePass s).allocatedVertexBuffers ++ [] =
      s.allocatedVertexBuffers
    simp [SpriteRenderer.framePass]

/-- C10: from every reachable state a `drawSpriteSource` call succeeds
(the batch-table entry it indexes exists, because `framePass` reset
`currentTexture` to `null` so the entry was created before being read),
every batch's vertex array has the full length
`max * FLOATS_PER_SPRITE`, and all 28 stores of the call land strictly
below that length, because the receiving batch is below capacity. -/
theorem C10_write_safety (max : ℕ) (s : RendererState) (t : Texture)
    (rect sourceRect : Rect) (color : Color)
    (hr : Reachable max s) (hmax : 1 ≤ max) :
    (∃ s', SpriteRenderer.drawSpriteSource max s t rect sourceRect
      color = some s') ∧
    (∀ p ∈ s.batchDrawCallPerTexture, ∀ b ∈ p.2,
      b.vertexData.length = max * FLOATS_PER_SPRITE) ∧
    (∀ k, k ≤ 27 →
      writeIndexBase s t + k < max * FLOATS_PER_SPRITE) := by
  have inv := reachable_inv hr hmax
  refine ⟨⟨_, drawSpriteSource_eq inv t rect sourceRect color⟩,
    fun p hp b hb => ((inv.batches p hp).1 b hb).2, ?_⟩
  intro k hk
  have hrc := receivingCount_lt hmax inv t
  unfold writeIndexBase
  have hle : (receivingCount s t + 1) * FLOATS_PER_SPRITE ≤
      max * FLOATS_PER_SPRITE :=
    Nat.mul_le_mul_right _ (by omega)
  have hexp : (receivingCount s t + 1) * FLOATS_PER_SPRITE =
      receivingCount s t * FLOATS_PER_SPRITE + FLOATS_PER_SPRITE := by
    ring
  have hF : FLOATS_PER_SPRITE = 28 := rfl
  omega

/-- C10 (witness): the write-safety property for a draw of texture `tA`
from a freshly started frame. -/
theorem C10_write_safety_witness :
    (∃ s', SpriteRenderer.drawSpriteSource 3
      (SpriteRenderer.framePass (SpriteRenderer.initState 3)) tA rW srW
      defaultColor = some s') ∧
    (∀ p ∈ (SpriteRenderer.framePass
        (SpriteRenderer.initState 3)).batchDrawCallPerTexture,
      ∀ b ∈ p.2, b.vertexData.length = 3 * FLOATS_PER_SPRITE) ∧
    (∀ k, k ≤ 27 →
      writeIndexBase (SpriteRenderer.framePass
        (SpriteRenderer.initState 3)) tA + k < 3 * FLOATS_PER_SPRITE) :=
  C10_write_safety 3 (SpriteRenderer.framePass (SpriteRenderer.initState 3))
    tA rW srW defaultColor (Reachable.framePass Reachable.init) (by decide)

end WebGPUTutorial
